import Mathlib

/-!
Verification development for the annotation-container core of the sloth
repository (file sloth/annotations/container.py).

The Python code is shallowly embedded: every function below is translated
from the source (Python 2 era, as witnessed by the cPickle import).  File
handles are modelled by passing the file CONTENT as a string; mutable
object attributes are modelled by explicit state passing; exceptions are
modelled by the Except monad over the PyError type below.
-/

/-- The exception kinds the embedded code can raise.  The first three come
from sloth.core.exceptions (ImproperlyConfigured, InvalidArgumentException,
NotImplementedException); the last three are Python builtin exceptions
(TypeError, IndexError, ValueError) that the embedded code can trigger. -/
inductive PyError where
  | improperlyConfigured (msg : String)
  | invalidArgument (msg : String)
  | notImplementedError (msg : String)
  | typeError (msg : String)
  | indexError
  | valueError (msg : String)
deriving DecidableEq

/-- True exactly for the NotImplementedException variant; used to state
that an observed failure is not the intended not-implemented failure. -/
def PyError.isNotImplementedError : PyError → Bool
  | .notImplementedError _ => true
  | _ => false

/-! ## Python string primitives used by container.py

These model the Python 2 str operations used by the source: str.strip(),
str.split() with no separator, int(), and iteration over the lines of an
open text file.  Python 2 byte strings make the ASCII whitespace and digit
sets below exact. -/

/-- The characters Python 2 str.strip and str.split treat as whitespace. -/
def isPyWs (c : Char) : Bool :=
  c = ' ' || c = '\t' || c = '\n' || c = '\x0d' || c = '\x0b' || c = '\x0c'

/-- Helper for pyStrip: drop leading whitespace from a character list. -/
def dropWsLeft (cs : List Char) : List Char := cs.dropWhile isPyWs

/-- Model of Python str.strip() with no argument. -/
def pyStrip (s : String) : String :=
  String.mk ((dropWsLeft (dropWsLeft s.data).reverse).reverse)

/-- Helper for pySplitWs: split a character list on whitespace runs,
carrying the (reversed) current token. -/
def pySplitWsAux : List Char → List Char → List (List Char)
  | [], cur => if cur.isEmpty then [] else [cur.reverse]
  | c :: rest, cur =>
    if isPyWs c then
      if cur.isEmpty then pySplitWsAux rest []
      else cur.reverse :: pySplitWsAux rest []
    else pySplitWsAux rest (c :: cur)

/-- Model of Python str.split() with no separator: split on runs of
whitespace, producing no empty fields. -/
def pySplitWs (s : String) : List String :=
  (pySplitWsAux s.data []).map String.mk

/-- Helper for pyFileLines: cut a character list after each newline. -/
def pyFileLinesAux : List Char → List Char → List (List Char)
  | [], cur => if cur.isEmpty then [] else [cur.reverse]
  | c :: rest, cur =>
    if c = '\n' then (c :: cur).reverse :: pyFileLinesAux rest []
    else pyFileLinesAux rest (c :: cur)

/-- Model of iterating over an open Python 2 text file: the content is cut
into lines, each KEEPING its trailing newline; a final chunk without a
newline is a line too; empty content yields no lines. -/
def pyFileLines (content : String) : List String :=
  (pyFileLinesAux content.data []).map String.mk

/-- Digit-run accumulator for pyInt. -/
def pyIntDigits : List Char → Nat → Option Nat
  | [], acc => some acc
  | c :: rest, acc =>
    if c.isDigit then pyIntDigits rest (acc * 10 + (c.toNat - '0'.toNat))
    else none

/-- Model of Python 2 int() applied to a base-10 string literal: optional
surrounding whitespace, an optional sign, then one or more ASCII digits.
Returns none where Python raises ValueError. -/
def pyInt (s : String) : Option Int :=
  let cs := (dropWsLeft (dropWsLeft s.data).reverse).reverse
  match cs with
  | '+' :: ds => if ds.isEmpty then none else (pyIntDigits ds 0).map Int.ofNat
  | '-' :: ds =>
    if ds.isEmpty then none else (pyIntDigits ds 0).map (fun n => -(n : Int))
  | ds => if ds.isEmpty then none else (pyIntDigits ds 0).map Int.ofNat

/-! ## Model of fnmatch.fnmatch

AnnotationContainerFactory.create matches filenames against glob patterns
with fnmatch.fnmatch.  On a POSIX build os.path.normcase is the identity,
and fnmatch.translate turns the pattern into an anchored DOTALL regular
expression.  We translate the pattern into a token list instead and run a
direct matcher: star matches any sequence of characters (including
slashes and newlines, as fnmatch does not special-case them), any matches
one character, a character class matches one character against literal
items and ranges, with a leading exclamation mark negating the class; an
unterminated bracket is a literal bracket.  An inverted range (whose
endpoints are out of order) matches no character. -/

/-- One item of a glob character class: a literal character or a range. -/
inductive ClsItem where
  | single (c : Char)
  | range (lo hi : Char)
deriving DecidableEq

/-- One token of a translated glob pattern. -/
inductive GlobTok where
  | star
  | any
  | lit (c : Char)
  | cls (neg : Bool) (items : List ClsItem)
deriving DecidableEq

/-- Find the first occurrence of a character, returning the parts before
and after it. -/
def splitAtChar (target : Char) : List Char → Option (List Char × List Char)
  | [] => none
  | c :: rest =>
    if c = target then some ([], rest)
    else (splitAtChar target rest).map (fun p => (c :: p.1, p.2))

/-- Scan a character class body as fnmatch.translate does, given the
characters after the opening bracket: a leading exclamation mark and then
a leading closing bracket are part of the body, and the body ends at the
next closing bracket.  Returns the body and the remaining pattern, or
none when the bracket is unterminated. -/
def scanClass (cs : List Char) : Option (List Char × List Char) :=
  let p1 : List Char × List Char :=
    match cs with
    | '!' :: t => (['!'], t)
    | _ => ([], cs)
  let p2 : List Char × List Char :=
    match p1.2 with
    | ']' :: t => (p1.1 ++ [']'], t)
    | _ => p1
  match splitAtChar ']' p2.2 with
  | none => none
  | some (mid, rest) => some (p2.1 ++ mid, rest)

/-- Parse the literal items and ranges of a character class body, with the
regular-expression convention that a dash at the start or end is literal. -/
def parseClassItems : List Char → List ClsItem
  | [] => []
  | a :: '-' :: b :: rest => ClsItem.range a b :: parseClassItems rest
  | c :: rest => ClsItem.single c :: parseClassItems rest

/-- Fuel-driven translation of a glob pattern into tokens, following
fnmatch.translate; the fuel only needs to cover the pattern length. -/
def translateAux : Nat → List Char → List GlobTok
  | 0, _ => []
  | _, [] => []
  | fuel + 1, c :: rest =>
    if c = '*' then GlobTok.star :: translateAux fuel rest
    else if c = '?' then GlobTok.any :: translateAux fuel rest
    else if c = '[' then
      match scanClass rest with
      | none => GlobTok.lit '[' :: translateAux fuel rest
      | some (stuff, rest2) =>
        match stuff with
        | '!' :: body => GlobTok.cls true (parseClassItems body) :: translateAux fuel rest2
        | body => GlobTok.cls false (parseClassItems body) :: translateAux fuel rest2
    else GlobTok.lit c :: translateAux fuel rest

/-- Membership of a character in a character class. -/
def inClass (c : Char) : List ClsItem → Bool
  | [] => false
  | ClsItem.single a :: rest => c = a || inClass c rest
  | ClsItem.range lo hi :: rest =>
    (lo.toNat ≤ c.toNat && c.toNat ≤ hi.toNat) || inClass c rest

/-- Fuel-driven anchored matcher for translated glob tokens; every
recursive call shrinks tokens plus text, so fuel covering their combined
length is enough. -/
def matchToks : Nat → List GlobTok → List Char → Bool
  | 0, _, _ => false
  | _ + 1, [], s => s.isEmpty
  | fuel + 1, GlobTok.star :: ts, s =>
    matchToks fuel ts s ||
      (match s with
       | [] => false
       | _ :: s2 => matchToks fuel (GlobTok.star :: ts) s2)
  | fuel + 1, GlobTok.any :: ts, s =>
    match s with
    | [] => false
    | _ :: s2 => matchToks fuel ts s2
  | fuel + 1, GlobTok.lit c :: ts, s =>
    match s with
    | [] => false
    | c2 :: s2 => c = c2 && matchToks fuel ts s2
  | fuel + 1, GlobTok.cls neg items :: ts, s =>
    match s with
    | [] => false
    | c :: s2 => (inClass c items != neg) && matchToks fuel ts s2

/-- Model of fnmatch.fnmatch(name, pattern) on a POSIX build. -/
def fnmatch (name pattern : String) : Bool :=
  let toks := translateAux (pattern.length + 1) pattern.data
  matchToks (toks.length + name.length + 1) toks name.data

/-! ## AnnotationContainerFactory

The factory keeps the registrations as the ordered list containers_ of
(pattern, container) pairs.  A container class applied to the
construction arguments is modelled by a Lean function applied to a value
of an argument type.  import_callable resolution of string references is
outside the claims and not modelled. -/

/-- Model of AnnotationContainerFactory.create: scan containers_ in
registration order and instantiate the container of the first pattern
matching the filename; with no match, raise ImproperlyConfigured. -/
def AnnotationContainerFactory.create {γ α : Type} :
    List (String × (γ → α)) → String → γ → Except PyError α
  | [], filename, _ =>
    .error (.improperlyConfigured
      ("No container registered for filename " ++ filename))
  | (pattern, container) :: rest, filename, args =>
    if fnmatch filename pattern then .ok (container args)
    else AnnotationContainerFactory.create rest filename args

/-! ## The annotation records

The parsers build Python dict literals with the keys filename, type and
annotations; point labels carry the keys type, class, x and y (class is a
Lean keyword, so the field is named cls). -/

/-- One point label as built by FeretContainer.parseFromFile. -/
structure PointLabel where
  type : String
  cls : String
  x : Int
  y : Int
deriving DecidableEq

/-- One annotation record (the fileitem dicts of the source). -/
structure FileItem where
  filename : String
  type : String
  annotations : List PointLabel
deriving DecidableEq

/-! ## AnnotationContainer base-class orchestration

A container instance holds the mutable attributes annotations_ and
filename_ (None modelled as Option.none).  load and save are modelled as
state transformers parameterised by the subclass primitive they invoke;
the informational timing log of load is a pure side effect and is not
modelled.  All file-system access of the source happens inside the
parse/serialize primitives (which open the file), so a result that is
independent of the primitive argument is a result computed before any
file-system access. -/

/-- The mutable attributes of an AnnotationContainer instance. -/
structure ContainerState where
  annotations_ : List FileItem
  filename_ : Option String
deriving DecidableEq

/-- Model of AnnotationContainer.clear (also the constructor): both
attributes are reset. -/
def AnnotationContainer.clear (_ : ContainerState) : ContainerState :=
  { annotations_ := [], filename_ := none }

/-- Model of AnnotationContainer.load, parameterised by the parse
primitive of the subclass.  An empty filename is falsy in Python, so the
guard raises InvalidArgumentException; otherwise filename_ is rebound
first and the parse primitive then runs on the new binding, its result or
exception being returned unchanged. -/
def AnnotationContainer.load {α : Type}
    (parseFromFile : String → Except PyError α)
    (st : ContainerState) (filename : String) :
    Except PyError α × ContainerState :=
  if filename = "" then
    (.error (.invalidArgument "filename cannot be empty"), st)
  else
    (parseFromFile filename, { st with filename_ := some filename })

/-- Model of AnnotationContainer.save, parameterised by the serialize
primitive of the subclass.  An empty filename argument falls back to the
currently bound filename_ (possibly none); filename_ is rebound only
after the serialize primitive returns without raising. -/
def AnnotationContainer.save {α : Type}
    (serializeToFile : Option String → α → Except PyError Unit)
    (st : ContainerState) (annotations : α) (filename : String) :
    Except PyError Unit × ContainerState :=
  let fname : Option String := if filename = "" then st.filename_ else some filename
  match serializeToFile fname annotations with
  | .error e => (.error e, st)
  | .ok _ => (.ok (), { st with filename_ := fname })

/-! ## Path resolution: posixpath.dirname and posixpath.join -/

/-- The characters of a string up to and including the last slash (the
head computed by the rfind of posixpath.split). -/
def upToLastSlash : List Char → List Char
  | [] => []
  | c :: rest =>
    match upToLastSlash rest with
    | [] => if c = '/' then ['/'] else []
    | t => c :: t

/-- Model of posixpath.dirname: take everything up to the last slash and
strip trailing slashes unless the head is empty or all slashes. -/
def posixpath.dirname (p : String) : String :=
  let head := upToLastSlash p.data
  if head.isEmpty || head.all (fun c => c = '/') then String.mk head
  else String.mk (head.reverse.dropWhile (fun c => c = '/')).reverse

/-- Whether a string starts with a slash (str.startswith of the source,
stated on the character list so that it evaluates by reduction). -/
def startsWithSlash (s : String) : Bool :=
  match s.data with
  | '/' :: _ => true
  | _ => false

/-- Whether a string ends with a slash. -/
def endsWithSlash (s : String) : Bool :=
  match s.data.reverse with
  | '/' :: _ => true
  | _ => false

/-- Model of posixpath.join with one extra component: an absolute second
component replaces the path entirely. -/
def posixpath.join (a b : String) : String :=
  if startsWithSlash b then b
  else if a = "" || endsWithSlash a then a ++ b
  else a ++ "/" ++ b

/-- Model of posixpath.isabs. -/
def posixpath.isabs (p : String) : Bool := startsWithSlash p

/-- Model of AnnotationContainer._fullpath: when a label file is bound,
join the filename onto the directory of the bound label file; otherwise
return it unchanged.  The first argument is the filename_ attribute. -/
def AnnotationContainer.fullpath (filename_ : Option String)
    (filename : String) : String :=
  match filename_ with
  | some f => posixpath.join (posixpath.dirname f) filename
  | none => filename

/-! ## FileNameListContainer -/

/-- The loop body of FileNameListContainer.parseFromFile: every line of
the file, stripped, becomes one record with type image and an empty
annotation list — including lines that strip to the empty string. -/
def fileNameListLoop : List String → List FileItem
  | [] => []
  | line :: rest =>
    { filename := pyStrip line, type := "image", annotations := [] }
      :: fileNameListLoop rest

/-- Model of FileNameListContainer.parseFromFile on the file content (the
basedir_ attribute it also sets is unused by the claims). -/
def FileNameListContainer.parseFromFile (content : String) : List FileItem :=
  fileNameListLoop (pyFileLines content)

/-- Model of FileNameListContainer.serializeToFile.  The source is
raise NotImplemented(...): NotImplemented is the builtin singleton, not
an exception class, so evaluating the call raises TypeError (with the
message, in Python, quoting NotImplementedType) and the intended message
is lost. -/
def FileNameListContainer.serializeToFile {α : Type}
    (_ : Option String) (_ : α) : Except PyError Unit :=
  .error (.typeError "NotImplementedType object is not callable")

/-! ## FeretContainer -/

/-- One iteration of the FeretContainer.parseFromFile loop, in the
evaluation order of the source: s = line.split(); the s[0] access, then
int(s[1]) .. int(s[6]) in order, where a missing index raises IndexError
and a failed conversion raises ValueError (carrying the offending
field). -/
def parseFeretLine (line : String) : Except PyError FileItem :=
  match pySplitWs line with
  | [] => .error .indexError
  | f0 :: rest1 =>
    match rest1 with
    | [] => .error .indexError
    | c1 :: rest2 =>
      match pyInt c1 with
      | none => .error (.valueError c1)
      | some x1 =>
        match rest2 with
        | [] => .error .indexError
        | c2 :: rest3 =>
          match pyInt c2 with
          | none => .error (.valueError c2)
          | some y1 =>
            match rest3 with
            | [] => .error .indexError
            | c3 :: rest4 =>
              match pyInt c3 with
              | none => .error (.valueError c3)
              | some x2 =>
                match rest4 with
                | [] => .error .indexError
                | c4 :: rest5 =>
                  match pyInt c4 with
                  | none => .error (.valueError c4)
                  | some y2 =>
                    match rest5 with
                    | [] => .error .indexError
                    | c5 :: rest6 =>
                      match pyInt c5 with
                      | none => .error (.valueError c5)
                      | some x3 =>
                        match rest6 with
                        | [] => .error .indexError
                        | c6 :: _ =>
                          match pyInt c6 with
                          | none => .error (.valueError c6)
                          | some y3 =>
                            .ok { filename := f0 ++ ".bmp",
                                  type := "image",
                                  annotations :=
                                    [{ type := "point", cls := "left_eye",
                                       x := x1, y := y1 },
                                     { type := "point", cls := "right_eye",
                                       x := x2, y := y2 },
                                     { type := "point", cls := "mouth",
                                       x := x3, y := y3 }] }

/-- The accumulation loop shared with the source: one item is appended
per line, and the first exception aborts the whole loop. -/
def mapExcept {α β : Type} (f : α → Except PyError β) :
    List α → Except PyError (List β)
  | [] => .ok []
  | x :: xs =>
    match f x with
    | .error e => .error e
    | .ok y =>
      match mapExcept f xs with
      | .error e => .error e
      | .ok ys => .ok (y :: ys)

/-- Model of FeretContainer.parseFromFile on the file content. -/
def FeretContainer.parseFromFile (content : String) :
    Except PyError (List FileItem) :=
  mapExcept parseFeretLine (pyFileLines content)

/-- Model of FeretContainer.serializeToFile; as in
FileNameListContainer.serializeToFile, the raise NotImplemented(...) of
the source evaluates the call on the NotImplemented singleton and so
raises TypeError. -/
def FeretContainer.serializeToFile {α : Type}
    (_ : Option String) (_ : α) : Except PyError Unit :=
  .error (.typeError "NotImplementedType object is not callable")

/-- The line-shape predicate named by the spec for the legacy
fixed-column format: a line is malformed when it has fewer than seven
whitespace-separated columns or one of the six coordinate columns is not
numeric (in the sense of the int() model pyInt). -/
def isNonNumeric : Option String → Bool
  | none => false
  | some t => (pyInt t).isNone

/-- A malformed Feret line per the spec wording. -/
def malformedFeretLine (line : String) : Bool :=
  let s := pySplitWs line
  decide (s.length < 7) || isNonNumeric s[1]? || isNonNumeric s[2]? ||
    isNonNumeric s[3]? || isNonNumeric s[4]? || isNonNumeric s[5]? ||
    isNonNumeric s[6]?

/-! # Theorems for the claims -/

/-- C1: for every ordered registration list and every filename,
AnnotationContainerFactory.create(filename) returns the instance built by
the container whose glob pattern is the first pattern in registration
order that matches the filename; patterns of later registrations are
unconstrained and may also match. -/
theorem create_returns_first_match {γ α : Type}
    (l : List (String × (γ → α))) (filename : String) (args : γ)
    (i : Nat) (pc : String × (γ → α))
    (hget : l[i]? = some pc)
    (hmatch : fnmatch filename pc.1 = true)
    (hfirst : ∀ j qc, j < i → l[j]? = some qc → fnmatch filename qc.1 = false) :
    AnnotationContainerFactory.create l filename args = .ok (pc.2 args) := by
  induction l generalizing i with
  | nil => simp at hget
  | cons hd tl ih =>
    cases i with
    | zero =>
      obtain ⟨pat, ctor⟩ := hd
      simp only [List.getElem?_cons_zero, Option.some.injEq] at hget
      subst hget
      simp [AnnotationContainerFactory.create, hmatch]
    | succ n =>
      have h0 : fnmatch filename hd.1 = false :=
        hfirst 0 hd (Nat.succ_pos n) (by simp)
      obtain ⟨pat, ctor⟩ := hd
      simp only [AnnotationContainerFactory.create]
      rw [show fnmatch filename pat = false from h0]
      simp only [Bool.false_eq_true, if_false]
      exact ih n (by simpa using hget)
        (fun j qc hj hg =>
          hfirst (j + 1) qc (Nat.succ_lt_succ hj) (by simpa using hg))

/-- Witness for C1: with the registrations [("*.json", c1), ("*", c2)]
and the filename "a.json", both patterns match, and create builds the
instance of the first registration. -/
theorem create_returns_first_match_witness :
    AnnotationContainerFactory.create
        [("*.json", fun _ => 1), ("*", fun _ => 2)] "a.json" () = .ok 1
      ∧ fnmatch "a.json" "*" = true :=
  ⟨create_returns_first_match
      [("*.json", fun _ => 1), ("*", fun _ => 2)] "a.json" ()
      0 ("*.json", fun _ => 1) rfl (by decide)
      (fun j qc hj _ => absurd hj (Nat.not_lt_zero j)),
   by decide⟩

/-- C2: for every filename matching no registered glob pattern, create
raises ImproperlyConfigured with the message of the source; in
particular it never returns a value. -/
theorem create_no_match_raises {γ α : Type}
    (l : List (String × (γ → α))) (filename : String) (args : γ)
    (hnone : ∀ pc ∈ l, fnmatch filename pc.1 = false) :
    AnnotationContainerFactory.create l filename args =
      .error (.improperlyConfigured
        ("No container registered for filename " ++ filename)) := by
  induction l with
  | nil => rfl
  | cons hd tl ih =>
    obtain ⟨pat, ctor⟩ := hd
    have h0 : fnmatch filename pat = false := hnone (pat, ctor) (by simp)
    simp only [AnnotationContainerFactory.create]
    rw [h0]
    simp only [Bool.false_eq_true, if_false]
    exact ih (fun pc hpc => hnone pc (List.mem_cons_of_mem _ hpc))

/-- Witness for C2: the filename "a.json" matches neither "*.txt" nor
"?.json", and create fails with ImproperlyConfigured. -/
theorem create_no_match_raises_witness :
    AnnotationContainerFactory.create
        [("*.txt", fun _ => 1), ("?.json", fun _ => 2)] "a2.json" () =
      .error (.improperlyConfigured
        "No container registered for filename a2.json") :=
  create_no_match_raises
    [("*.txt", fun _ => 1), ("?.json", fun _ => 2)] "a2.json" ()
    (by decide)

/-- C3: for every container state and the empty (falsy) filename
argument, load raises InvalidArgumentException, returns the state
unchanged (filename_ is not rebound), and does so for EVERY parse
primitive — so the parse primitive, the only place the source touches
the file system, is never consulted. -/
theorem load_empty_filename_raises {α : Type}
    (parseFromFile : String → Except PyError α) (st : ContainerState) :
    AnnotationContainer.load parseFromFile st "" =
      (.error (.invalidArgument "filename cannot be empty"), st) := rfl

/-- C10: for every non-empty filename, load rebinds filename_ to the new
filename and only then runs the parse primitive on it, whose outcome —
exception included — is returned unchanged; so after a parse failure the
state still carries the new filename, not the previously bound one. -/
theorem load_rebinds_before_parse {α : Type}
    (parseFromFile : String → Except PyError α) (st : ContainerState)
    (filename : String) (h : filename ≠ "") :
    AnnotationContainer.load parseFromFile st filename =
      (parseFromFile filename, { st with filename_ := some filename }) := by
  simp [AnnotationContainer.load, h]

/-- Witness for C10: loading "new.json" over a container bound to
"old.json" with a failing parse primitive leaves the new filename bound
and surfaces the parse failure unchanged. -/
theorem load_rebinds_before_parse_witness :
    AnnotationContainer.load
        (fun _ => (.error (.valueError "boom") : Except PyError (List FileItem)))
        { annotations_ := [], filename_ := some "old.json" } "new.json" =
      (.error (.valueError "boom"),
       { annotations_ := [], filename_ := some "new.json" }) :=
  load_rebinds_before_parse
    (fun _ => (.error (.valueError "boom") : Except PyError (List FileItem)))
    { annotations_ := [], filename_ := some "old.json" } "new.json"
    (by decide)

/-- C4: fullpath returns the input unchanged when no label file is bound;
returns the input joined onto the directory component of the bound label
file when one is bound and the input is relative; and returns an
absolute input unchanged whatever the binding, because posixpath.join
discards the base when its second component is absolute. -/
theorem fullpath_resolution (filename_ : Option String) (p : String) :
    AnnotationContainer.fullpath none p = p
      ∧ (∀ f, filename_ = some f → posixpath.isabs p = false →
          AnnotationContainer.fullpath filename_ p =
            posixpath.join (posixpath.dirname f) p)
      ∧ (posixpath.isabs p = true →
          AnnotationContainer.fullpath filename_ p = p) := by
  refine ⟨rfl, ?_, ?_⟩
  · intro f hf _
    rw [hf]
    rfl
  · intro habs
    cases filename_ with
    | none => rfl
    | some f =>
      simp only [AnnotationContainer.fullpath, posixpath.join]
      rw [show startsWithSlash p = true from habs]
      simp

/-- Witness for C4: with the label file "/data/labels.txt" bound, the
relative input "img/a.png" is joined under "/data" while the absolute
input "/abs/b.png" is untouched; with nothing bound the input passes
through. -/
theorem fullpath_resolution_witness :
    AnnotationContainer.fullpath none "img/a.png" = "img/a.png"
      ∧ AnnotationContainer.fullpath (some "/data/labels.txt") "img/a.png" =
          posixpath.join (posixpath.dirname "/data/labels.txt") "img/a.png"
      ∧ AnnotationContainer.fullpath (some "/data/labels.txt") "/abs/b.png" =
          "/abs/b.png" :=
  ⟨(fullpath_resolution none "img/a.png").1,
   (fullpath_resolution (some "/data/labels.txt") "img/a.png").2.1
     "/data/labels.txt" rfl (by decide),
   (fullpath_resolution (some "/data/labels.txt") "/abs/b.png").2.2
     (by decide)⟩

/-- C5: FeretContainer.parseFromFile on the single input line
"s0001 10 20 30 20 20 40" yields exactly one record with filename
"s0001.bmp", type image, and exactly the three point labels (10,20)
left_eye, (30,20) right_eye, (20,40) mouth, in that order. -/
theorem feret_parse_example :
    FeretContainer.parseFromFile "s0001 10 20 30 20 20 40" =
      .ok [{ filename := "s0001.bmp", type := "image",
             annotations :=
               [{ type := "point", cls := "left_eye", x := 10, y := 20 },
                { type := "point", cls := "right_eye", x := 30, y := 20 },
                { type := "point", cls := "mouth", x := 20, y := 40 }] }] :=
  rfl

/-- C7 (the code bug): for every state, every annotations argument and
every filename, save on FileNameListContainer and on FeretContainer
fails — but with TypeError, not with the NotImplementedException the
spec names, because raise NotImplemented(...) calls the non-callable
NotImplemented singleton instead of raising the imported
NotImplementedException; the state is left unchanged. -/
theorem save_unsupported_raises_typeerror {α : Type}
    (st : ContainerState) (annotations : α) (filename : String) :
    AnnotationContainer.save FileNameListContainer.serializeToFile
        st annotations filename =
      (.error (.typeError "NotImplementedType object is not callable"), st)
    ∧ AnnotationContainer.save FeretContainer.serializeToFile
        st annotations filename =
      (.error (.typeError "NotImplementedType object is not callable"), st)
    ∧ (PyError.typeError
        "NotImplementedType object is not callable").isNotImplementedError
        = false :=
  ⟨rfl, rfl, rfl⟩

/-- C6 fails on the code: the source appends one record for EVERY line of
the file, blank lines included.  On the input "a.jpg\n\nb.jpg\n" only two
lines are non-empty after trimming, yet three records are produced, the
middle one with an empty filename — refuting one record per non-empty
trimmed line. -/
theorem filenamelist_counterexample :
    FileNameListContainer.parseFromFile "a.jpg\n\nb.jpg\n" =
        [{ filename := "a.jpg", type := "image", annotations := [] },
         { filename := "", type := "image", annotations := [] },
         { filename := "b.jpg", type := "image", annotations := [] }]
      ∧ ((pyFileLines "a.jpg\n\nb.jpg\n").filter
          (fun l => !(pyStrip l == ""))).length = 2
      ∧ (FileNameListContainer.parseFromFile "a.jpg\n\nb.jpg\n").length = 3 :=
  ⟨rfl, rfl, rfl⟩

/-- C6 as amended: FileNameListContainer.parseFromFile yields exactly one
record per input line — lines that are blank after trimming included,
each yielding a record with empty filename — in input order, each record
carrying the trimmed line as filename, type image and an empty
annotation list; on "a.jpg\nb.jpg\n" this is exactly two records. -/
theorem filenamelist_one_record_per_line (content : String) :
    FileNameListContainer.parseFromFile content =
        (pyFileLines content).map
          (fun line =>
            { filename := pyStrip line, type := "image", annotations := [] })
      ∧ FileNameListContainer.parseFromFile "a.jpg\nb.jpg\n" =
        [{ filename := "a.jpg", type := "image", annotations := [] },
         { filename := "b.jpg", type := "image", annotations := [] }] := by
  constructor
  · unfold FileNameListContainer.parseFromFile
    induction pyFileLines content with
    | nil => rfl
    | cons hd tl ih => simp [fileNameListLoop, ih]
  · rfl

/-- The loop of FeretContainer.parseFromFile returns a list only when
every line was parsed: a parsed whole input means every line parsed. -/
theorem mapExcept_ok_mem {α β : Type} (f : α → Except PyError β)
    (l : List α) (r : List β) (h : mapExcept f l = .ok r)
    (x : α) (hx : x ∈ l) : ∃ y, f x = .ok y := by
  induction l generalizing r with
  | nil => cases hx
  | cons a tl ih =>
    rcases List.mem_cons.mp hx with hxa | hxtl
    · subst hxa
      cases hfa : f x with
      | error e => simp [mapExcept, hfa] at h
      | ok y => exact ⟨y, rfl⟩
    · cases hfa : f a with
      | error e => simp [mapExcept, hfa] at h
      | ok y =>
        cases hmt : mapExcept f tl with
        | error e => simp [mapExcept, hfa, hmt] at h
        | ok ys => exact ih ys hmt hxtl

/-- A line that parses has at least seven columns, all six coordinate
columns numeric: a successfully parsed Feret line is not malformed. -/
theorem parseFeretLine_ok_not_malformed (line : String) (it : FileItem)
    (h : parseFeretLine line = .ok it) : malformedFeretLine line = false := by
  unfold parseFeretLine at h
  rcases hs : pySplitWs line with _ | ⟨f0, _ | ⟨c1, _ | ⟨c2, _ | ⟨c3, _ |
    ⟨c4, _ | ⟨c5, _ | ⟨c6, rest⟩⟩⟩⟩⟩⟩⟩ <;> rw [hs] at h
  · simp at h
  · simp at h
  · cases hp1 : pyInt c1 <;> simp [hp1] at h
  · cases hp1 : pyInt c1 <;> simp [hp1] at h
    cases hp2 : pyInt c2 <;> simp [hp2] at h
  · cases hp1 : pyInt c1 <;> simp [hp1] at h
    cases hp2 : pyInt c2 <;> simp [hp2] at h
    cases hp3 : pyInt c3 <;> simp [hp3] at h
  · cases hp1 : pyInt c1 <;> simp [hp1] at h
    cases hp2 : pyInt c2 <;> simp [hp2] at h
    cases hp3 : pyInt c3 <;> simp [hp3] at h
    cases hp4 : pyInt c4 <;> simp [hp4] at h
  · cases hp1 : pyInt c1 <;> simp [hp1] at h
    cases hp2 : pyInt c2 <;> simp [hp2] at h
    cases hp3 : pyInt c3 <;> simp [hp3] at h
    cases hp4 : pyInt c4 <;> simp [hp4] at h
    cases hp5 : pyInt c5 <;> simp [hp5] at h
  · cases hp1 : pyInt c1 <;> simp only [hp1] at h
    · simp at h
    cases hp2 : pyInt c2 <;> simp only [hp2] at h
    · simp at h
    cases hp3 : pyInt c3 <;> simp only [hp3] at h
    · simp at h
    cases hp4 : pyInt c4 <;> simp only [hp4] at h
    · simp at h
    cases hp5 : pyInt c5 <;> simp only [hp5] at h
    · simp at h
    cases hp6 : pyInt c6 <;> simp only [hp6] at h
    · simp at h
    simp [malformedFeretLine, hs, isNonNumeric, hp1, hp2, hp3, hp4, hp5, hp6]

/-- C9: every input containing at least one malformed line — fewer than
seven whitespace-separated columns, or a non-numeric coordinate field —
makes FeretContainer.parseFromFile fail as a whole: an exception is
returned instead of any (partial) annotation list, and no malformed row
is skipped. -/
theorem feret_malformed_fails_whole_parse (content : String)
    (h : ∃ line ∈ pyFileLines content, malformedFeretLine line = true) :
    ∃ e, FeretContainer.parseFromFile content = .error e := by
  obtain ⟨line, hmem, hmal⟩ := h
  cases hres : FeretContainer.parseFromFile content with
  | error e => exact ⟨e, rfl⟩
  | ok r =>
    unfold FeretContainer.parseFromFile at hres
    obtain ⟨it, hok⟩ :=
      mapExcept_ok_mem parseFeretLine (pyFileLines content) r hres line hmem
    rw [parseFeretLine_ok_not_malformed line it hok] at hmal
    simp at hmal

/-- Witness for C9: in a two-line input whose first line is well-formed
and whose second line has only three columns, the whole parse fails. -/
theorem feret_malformed_fails_whole_parse_witness :
    (∃ line ∈ pyFileLines "s0001 10 20 30 20 20 40\ns0002 1 2",
        malformedFeretLine line = true)
      ∧ ∃ e, FeretContainer.parseFromFile
          "s0001 10 20 30 20 20 40\ns0002 1 2" = .error e :=
  ⟨by decide,
   feret_malformed_fails_whole_parse "s0001 10 20 30 20 20 40\ns0002 1 2"
     (by decide)⟩
